import Mathlib

/-!
Shallow embedding of the `secondary-terminal` VSCode extension's core:
`TerminalSessionManager` (src/terminalSessionManager.ts) and
`ShellProcessManager` (shellProcessManager.ts, `terminateProcessAsync` variant).

Strings are Lean `String`s (chunks of child-process output); time is a `Nat`
(`Date.now()` in milliseconds); a webview is identified by a `Nat`; whether a
`webview.postMessage` call succeeds (it can throw once the view is disposed) is
an explicit `postOk : Bool` parameter.  Deliveries to consumers are collected
in an ordered trace of `(view, data)` pairs.  The debounce timer handle is
modelled as a `Bool` flag (`outputTimer`); a timer-fire is an explicit event
that is enabled only while the flag is set.
-/

set_option maxRecDepth 8192

namespace SecondaryTerminal

/-- `TERMINAL_CONSTANTS.MAX_BUFFER_SIZE` (terminalSessionManager.ts line 27). -/
def MAX_BUFFER_SIZE : Nat := 50000

/-- `TERMINAL_CONSTANTS.DEFAULT_MAX_LINES` (line 28). -/
def DEFAULT_MAX_LINES : Nat := 300

/-- `Math.floor(cap * TERMINAL_CONSTANTS.BUFFER_TRIM_RATIO)` with the trim
fraction 0.7 (line 29); on the concrete caps used by the program
(50000 and the line caps) the double-precision product is exact, so the
`Nat` floor `cap * 7 / 10` coincides with the JavaScript value. -/
def trimTarget (cap : Nat) : Nat := cap * 7 / 10

/-- `MAX_DEBOUNCE_MS` (line 198). -/
def MAX_DEBOUNCE_MS : Nat := 32

/-- `IMMEDIATE_FLUSH_THRESHOLD` (line 199). -/
def IMMEDIATE_FLUSH_THRESHOLD : Nat := 8192

/-- `DEBOUNCE_WINDOW_MS`: the literal `16` of lines 214 and 223. -/
def DEBOUNCE_WINDOW_MS : Nat := 16

/-- `countNewlines` (lines 352-361): count the characters with char code 10. -/
def countNewlines (text : String) : Nat :=
  text.data.countP (fun c => c == '\n')

/-- The `TerminalSession` record (terminalSessionManager.ts lines 3-19). -/
structure TerminalSession where
  outputChunks : List String
  outputNewlines : List Nat
  totalBufferLength : Nat
  totalLineCount : Nat
  currentView : Option Nat
  isConnected : Bool
  maxBufferSize : Nat
  maxHistoryLines : Nat
  pendingOutput : String
  outputTimer : Bool
  lastOutputTime : Nat
  pendingSince : Option Nat
deriving DecidableEq

/-- The fresh session built by `getOrCreateSession` (lines 61-75):
`maxBufferSize` is always `MAX_BUFFER_SIZE` and `maxHistoryLines` is
`Math.max(50, configuredMaxLines)` read from the configuration. -/
def mkSession (configuredMaxLines : Nat) : TerminalSession :=
  { outputChunks := []
    outputNewlines := []
    totalBufferLength := 0
    totalLineCount := 0
    currentView := none
    isConnected := false
    maxBufferSize := MAX_BUFFER_SIZE
    maxHistoryLines := max 50 configuredMaxLines
    pendingOutput := ""
    outputTimer := false
    lastOutputTime := 0
    pendingSince := none }

/-- Result of the trimming while-loop. -/
structure TrimState where
  chunks : List String
  newlines : List Nat
  totalLen : Nat
  totalLines : Nat
deriving DecidableEq

/-- The eviction while-loop shared by `addOutput` (lines 158-166) and
`connectView` (lines 95-103): while the running totals exceed the targets and
chunks remain, shift the oldest chunk off the front and subtract its length
and newline count (`outputNewlines.shift() || 0`). -/
def evictLoop (targetSize targetLines : Nat) :
    List String → List Nat → Nat → Nat → TrimState
  | [], nls, len, lines => ⟨[], nls, len, lines⟩
  | c :: rest, nls, len, lines =>
    if len > targetSize ∨ lines > targetLines then
      evictLoop targetSize targetLines rest nls.tail (len - c.length) (lines - nls.headD 0)
    else ⟨c :: rest, nls, len, lines⟩

/-- The buffer-mutation half of `addOutput` (lines 144-167): push the chunk,
update the running totals, then trim from the front toward
`cap * BUFFER_TRIM_RATIO` if either cap is exceeded. -/
def addOutputBuffer (s : TerminalSession) (data : String) : TerminalSession :=
  let chunks := s.outputChunks ++ [data]
  let nl := countNewlines data
  let newlines := s.outputNewlines ++ [nl]
  let len := s.totalBufferLength + data.length
  let lines := s.totalLineCount + nl
  if len > s.maxBufferSize ∨ lines > s.maxHistoryLines then
    let r := evictLoop (trimTarget s.maxBufferSize) (trimTarget s.maxHistoryLines)
      chunks newlines len lines
    { s with outputChunks := r.chunks, outputNewlines := r.newlines,
             totalBufferLength := r.totalLen, totalLineCount := r.totalLines }
  else
    { s with outputChunks := chunks, outputNewlines := newlines,
             totalBufferLength := len, totalLineCount := lines }

/-- A delivery: `(view, data)` for one successful `postMessage {type: "output"}`. -/
abbrev Delivery := Nat × String

/-- `sendToView` (lines 254-266): post `data` to the current view if any;
a throwing `postMessage` (modelled by `postOk = false`) marks the session
disconnected and delivers nothing. -/
def sendToView (s : TerminalSession) (data : String) (postOk : Bool) :
    TerminalSession × List Delivery :=
  match s.currentView with
  | some v => if postOk then (s, [(v, data)]) else ({ s with isConnected := false }, [])
  | none => (s, [])

/-- `flushPendingOutput` (lines 230-249).  The source first clears
`pendingOutput`, stamps `lastOutputTime` and nulls `pendingSince`, then posts;
on a throw the catch block additionally marks the session disconnected.  In
both paths `outputTimer` is cleared at the end. -/
def flushPendingOutput (s : TerminalSession) (now : Nat) (postOk : Bool) :
    TerminalSession × List Delivery :=
  let r :=
    match s.currentView with
    | some v =>
      if s.pendingOutput ≠ "" then
        if postOk then
          ({ s with pendingOutput := "", lastOutputTime := now, pendingSince := none },
           [(v, s.pendingOutput)])
        else
          ({ s with pendingOutput := "", lastOutputTime := now, pendingSince := none,
                    isConnected := false }, [])
      else (s, [])
    | none => (s, [])
  ({ r.1 with outputTimer := false }, r.2)

/-- `sendToViewDebounced` (lines 191-228): append to the pending accumulator,
start the batch clock if needed; flush immediately (cancelling any timer) when
the accumulator reaches `IMMEDIATE_FLUSH_THRESHOLD` or the batch is at least
`MAX_DEBOUNCE_MS` old; otherwise debounce (set/replace the timer) when the gap
since the last flush is under `DEBOUNCE_WINDOW_MS`, else flush immediately. -/
def sendToViewDebounced (s : TerminalSession) (data : String) (now : Nat) (postOk : Bool) :
    TerminalSession × List Delivery :=
  let pending := s.pendingOutput ++ data
  let since := s.pendingSince.getD now
  let s1 := { s with pendingOutput := pending, pendingSince := some since }
  if pending.length ≥ IMMEDIATE_FLUSH_THRESHOLD ∨ now - since ≥ MAX_DEBOUNCE_MS then
    flushPendingOutput { s1 with outputTimer := false } now postOk
  else if now - s1.lastOutputTime < DEBOUNCE_WINDOW_MS then
    ({ s1 with outputTimer := true }, [])
  else
    flushPendingOutput s1 now postOk

/-- `connectView` (lines 84-121): reconcile `maxHistoryLines` with the
configuration (trimming immediately if a cap is now exceeded), mark a previous
different view disconnected, attach the new view, and if the buffer is
non-empty post the joined buffer to it as one snapshot, without clearing the
buffer. -/
def connectView (s : TerminalSession) (view : Nat) (configuredMaxLines : Nat)
    (postOk : Bool) : TerminalSession × List Delivery :=
  let cml := max 50 configuredMaxLines
  let s1 : TerminalSession :=
    if cml ≠ s.maxHistoryLines then
      let s' := { s with maxHistoryLines := cml }
      if s'.totalLineCount > s'.maxHistoryLines ∨ s'.totalBufferLength > s'.maxBufferSize then
        let r := evictLoop (trimTarget s'.maxBufferSize) (trimTarget s'.maxHistoryLines)
          s'.outputChunks s'.outputNewlines s'.totalBufferLength s'.totalLineCount
        { s' with outputChunks := r.chunks, outputNewlines := r.newlines,
                  totalBufferLength := r.totalLen, totalLineCount := r.totalLines }
      else s'
    else s
  let s2 : TerminalSession :=
    match s1.currentView with
    | some w => if w ≠ view then { s1 with isConnected := false } else s1
    | none => s1
  let s3 : TerminalSession := { s2 with currentView := some view, isConnected := true }
  if 0 < s3.totalBufferLength ∧ 0 < s3.outputChunks.length then
    sendToView s3 (String.join s3.outputChunks) postOk
  else (s3, [])

/-- `disconnectView` (lines 126-132): detach only when `view` is the currently
attached one. -/
def disconnectView (s : TerminalSession) (view : Nat) : TerminalSession :=
  if s.currentView = some view then
    { s with currentView := none, isConnected := false }
  else s

/-- `clearBuffer` (lines 178-186). -/
def clearBuffer (s : TerminalSession) : TerminalSession :=
  { s with outputChunks := [], totalBufferLength := 0,
           outputNewlines := [], totalLineCount := 0 }

/-- The per-session behaviour of `addOutput` (lines 137-173) once the session
exists: mutate the buffer, then route the chunk through the debounce scheduler
if a connected view is attached. -/
def addOutputSession (s : TerminalSession) (data : String) (now : Nat) (postOk : Bool) :
    TerminalSession × List Delivery :=
  let s1 := addOutputBuffer s data
  if s1.isConnected && s1.currentView.isSome then
    sendToViewDebounced s1 data now postOk
  else (s1, [])

/-- Firing of the debounce timer set at line 223: enabled only while
`outputTimer` is set, and then runs `flushPendingOutput`. -/
def timerFire (s : TerminalSession) (now : Nat) (postOk : Bool) :
    TerminalSession × List Delivery :=
  if s.outputTimer then flushPendingOutput s now postOk else (s, [])

/-- The external events a session can experience. -/
inductive Event where
  | addOutput (data : String) (now : Nat) (postOk : Bool)
  | connect (view : Nat) (configuredMaxLines : Nat) (postOk : Bool)
  | disconnect (view : Nat)
  | timer (now : Nat) (postOk : Bool)
  | clear
deriving DecidableEq

/-- One event step on a session, returning the deliveries it causes. -/
def stepEvent (s : TerminalSession) : Event → TerminalSession × List Delivery
  | Event.addOutput data now postOk => addOutputSession s data now postOk
  | Event.connect view cml postOk => connectView s view cml postOk
  | Event.disconnect view => (disconnectView s view, [])
  | Event.timer now postOk => timerFire s now postOk
  | Event.clear => (clearBuffer s, [])

/-- Run a list of events, concatenating the delivery traces in order. -/
def runEvents (s : TerminalSession) : List Event → TerminalSession × List Delivery
  | [] => (s, [])
  | e :: es =>
    let r := stepEvent s e
    let r2 := runEvents r.1 es
    (r2.1, r.2 ++ r2.2)

/-- The manager's key→session registry (the `sessions` map, line 35). -/
structure SessionManagerState where
  sessions : List (String × TerminalSession)
deriving DecidableEq

/-- `this.sessions.get(workspaceKey)`. -/
def lookupSession (m : SessionManagerState) (key : String) : Option TerminalSession :=
  (m.sessions.find? (fun p => p.1 == key)).map Prod.snd

/-- Replace the session stored under `key`. -/
def storeSession (m : SessionManagerState) (key : String) (s : TerminalSession) :
    SessionManagerState :=
  ⟨m.sessions.map (fun p => if p.1 == key then (p.1, s) else p)⟩

/-- Manager-level `addOutput` (lines 137-143): if no session exists for the
key the call logs a warning and returns — no state change, no delivery, no
error. -/
def addOutputMgr (m : SessionManagerState) (key : String) (data : String)
    (now : Nat) (postOk : Bool) : SessionManagerState × List Delivery :=
  match lookupSession m key with
  | none => (m, [])
  | some s =>
    let r := addOutputSession s data now postOk
    (storeSession m key r.1, r.2)

/-! ### Process supervisor (`ShellProcessManager`, `terminateProcessAsync` variant)

A child process is abstracted to the three observations the manager makes of
it: `killed` (`process.killed`), `exited` (`process.exitCode !== null`) and
`stdinWritable` (the `isProcessStdinWritable` check over
destroyed/writable/writableEnded/writableFinished). -/

/-- The observable fields of a registry entry (`ShellProcessInfo` plus the
child-process flags the manager reads). -/
structure ProcInfo where
  killed : Bool
  exited : Bool
  stdinWritable : Bool
deriving DecidableEq

/-- The manager's key→process registry (the `processes` map). -/
structure ShellManagerState where
  processes : List (String × ProcInfo)
deriving DecidableEq

/-- `this.processes.get(workspaceKey)`. -/
def lookupProc (m : ShellManagerState) (key : String) : Option ProcInfo :=
  (m.processes.find? (fun p => p.1 == key)).map Prod.snd

/-- `this.processes.delete(workspaceKey)`. -/
def removeProc (m : ShellManagerState) (key : String) : ShellManagerState :=
  ⟨m.processes.filter (fun p => !(p.1 == key))⟩

/-- The ordered side effects `terminateProcessAsync` performs. -/
inductive TermAction where
  | deleteKey (key : String)
  | destroyStdin (key : String)
  | signalTerm (key : String)
  | scheduleForceKill (key : String)
deriving DecidableEq

/-- `terminateProcessAsync` (shellProcessManager.ts, lines 261-311): its
synchronous effect on the registry together with the ordered trace of actions
it performs and whether the returned promise settles without error (the
promise is built with `resolve` only and every path reaches a `resolve`, so
this is always `true`).  A missing key returns at once; otherwise the key is
deleted from the registry first, an already-dead process resolves immediately,
and a live one has its stdin destroyed, receives SIGTERM, and gets the
SIGKILL escalation timer armed. -/
def terminateProcessAsync (m : ShellManagerState) (key : String) :
    ShellManagerState × List TermAction × Bool :=
  match lookupProc m key with
  | none => (m, [], true)
  | some info =>
    let m' := removeProc m key
    if info.killed || info.exited then
      (m', [TermAction.deleteKey key], true)
    else
      (m', [TermAction.deleteKey key, TermAction.destroyStdin key,
            TermAction.signalTerm key, TermAction.scheduleForceKill key], true)

/-- The `shouldCreate` test of `getOrCreateProcess` (lines 44-53): spawn a
fresh process when there is no registry entry, or the entry's process is
killed, has exited, or its stdin is no longer writable. -/
def shouldCreate (m : ShellManagerState) (key : String) : Bool :=
  match lookupProc m key with
  | none => true
  | some info => info.killed || info.exited || !info.stdinWritable

/-! ### Backpressure pair (spec-modelled)

`sendToProcessWithBackpressure` and `waitForDrain` are referenced by
`terminalProvider.ts` (`writeWithBackpressure`, lines 434-445) but their
bodies are not among the sources; they are modelled from the spec.  The
child's input stream is abstracted to its buffered byte count, its
high-water mark and whether a one-shot drain listener is registered. -/

/-- The observable state of the child's input stream. -/
structure InputStream where
  buffered : Nat
  highWaterMark : Nat
  drainListener : Bool
deriving DecidableEq

/-- Whether a caller of `waitForDrain` is still suspended. -/
inductive DrainWait where
  | waiting
  | resumed
deriving DecidableEq

/-- Modelled from the spec: `ShellProcessManager.sendToProcessWithBackpressure`
is absent from the sources (only its caller `writeWithBackpressure` in
terminalProvider.ts survives); per the spec it "attempts the write and returns
whether the underlying stream's internal buffer is under its high-water
mark". -/
def sendToProcessWithBackpressure (st : InputStream) (data : String) :
    InputStream × Bool :=
  let st' := { st with buffered := st.buffered + data.length }
  (st', decide (st'.buffered < st'.highWaterMark))

/-- Modelled from the spec: `ShellProcessManager.waitForDrain` is absent from
the sources; per the spec it "suspends the caller (via a one-shot 'drain'
notification) until the stream signals it can accept more data": it registers
a one-shot drain listener and leaves the caller waiting. -/
def waitForDrain (st : InputStream) : InputStream × DrainWait :=
  ({ st with drainListener := true }, DrainWait.waiting)

/-- Modelled from the spec: the stream's drain event.  If a one-shot listener
is registered it is removed and the suspended caller resumes (the stream has
emptied its internal buffer); otherwise nothing changes. -/
def drainEvent (st : InputStream) (caller : DrainWait) : InputStream × DrainWait :=
  if st.drainListener then
    ({ st with drainListener := false, buffered := 0 }, DrainWait.resumed)
  else (st, caller)

/-- `writeWithBackpressure` (terminalProvider.ts lines 434-445): attempt the
write; when it reports backpressure, suspend on `waitForDrain`. -/
def writeWithBackpressure (st : InputStream) (data : String) :
    InputStream × DrainWait :=
  let r := sendToProcessWithBackpressure st data
  if r.2 then (r.1, DrainWait.resumed)
  else waitForDrain r.1

/-! ### Concrete run for the eviction steady state (claim C9) -/

/-- A 1000-character chunk with no newline. -/
def chunk1000 : String := String.mk (List.replicate 1000 'a')

/-- The session after `n` `addOutput` calls of `chunk1000` on a fresh session
with the default caps (line cap not binding: the chunks hold no newline). -/
def steadySession (n : Nat) : TerminalSession :=
  (List.replicate n chunk1000).foldl addOutputBuffer (mkSession DEFAULT_MAX_LINES)

/-! ### Helper lemmas -/

theorem evictLoop_chunks_suffix (ts tl : Nat) :
    ∀ (chunks : List String) (nls : List Nat) (len lines : Nat),
      (evictLoop ts tl chunks nls len lines).chunks <:+ chunks := by
  intro chunks
  induction chunks with
  | nil => intro nls len lines; exact List.suffix_refl _
  | cons c rest ih =>
    intro nls len lines
    simp only [evictLoop]
    split
    · exact (ih _ _ _).trans (List.suffix_cons c rest)
    · exact List.suffix_refl _

theorem evictLoop_post (ts tl : Nat) :
    ∀ (chunks : List String) (nls : List Nat) (len lines : Nat),
      (evictLoop ts tl chunks nls len lines).chunks = [] ∨
        ((evictLoop ts tl chunks nls len lines).totalLen ≤ ts ∧
          (evictLoop ts tl chunks nls len lines).totalLines ≤ tl) := by
  intro chunks
  induction chunks with
  | nil => intro nls len lines; left; rfl
  | cons c rest ih =>
    intro nls len lines
    simp only [evictLoop]
    split
    case isTrue h => exact ih _ _ _
    case isFalse h => right; dsimp only; omega

theorem trimTarget_le (cap : Nat) : trimTarget cap ≤ cap := by
  unfold trimTarget
  calc cap * 7 / 10 ≤ cap * 10 / 10 := Nat.div_le_div_right (by omega)
    _ = cap := Nat.mul_div_cancel cap (by norm_num)

theorem addOutputBuffer_chunks_suffix (s : TerminalSession) (data : String) :
    (addOutputBuffer s data).outputChunks <:+ s.outputChunks ++ [data] := by
  simp only [addOutputBuffer]
  split
  · exact evictLoop_chunks_suffix _ _ _ _ _ _
  · exact List.suffix_refl _

theorem flushPendingOutput_buffer (s : TerminalSession) (now : Nat) (postOk : Bool) :
    (flushPendingOutput s now postOk).1.outputChunks = s.outputChunks ∧
      (flushPendingOutput s now postOk).1.outputNewlines = s.outputNewlines ∧
      (flushPendingOutput s now postOk).1.totalBufferLength = s.totalBufferLength ∧
      (flushPendingOutput s now postOk).1.totalLineCount = s.totalLineCount ∧
      (flushPendingOutput s now postOk).1.maxBufferSize = s.maxBufferSize ∧
      (flushPendingOutput s now postOk).1.maxHistoryLines = s.maxHistoryLines ∧
      (flushPendingOutput s now postOk).1.currentView = s.currentView := by
  unfold flushPendingOutput
  cases hv : s.currentView with
  | none => simp [hv]
  | some v =>
    by_cases hp : s.pendingOutput = ""
    · simp [hv, hp]
    · cases postOk <;> simp [hv, hp]

theorem sendToViewDebounced_buffer (s : TerminalSession) (data : String) (now : Nat)
    (postOk : Bool) :
    (sendToViewDebounced s data now postOk).1.outputChunks = s.outputChunks ∧
      (sendToViewDebounced s data now postOk).1.outputNewlines = s.outputNewlines ∧
      (sendToViewDebounced s data now postOk).1.totalBufferLength = s.totalBufferLength ∧
      (sendToViewDebounced s data now postOk).1.totalLineCount = s.totalLineCount := by
  simp only [sendToViewDebounced]
  split
  · have h := flushPendingOutput_buffer
      { s with pendingOutput := s.pendingOutput ++ data,
               pendingSince := some (s.pendingSince.getD now), outputTimer := false } now postOk
    exact ⟨h.1, h.2.1, h.2.2.1, h.2.2.2.1⟩
  · split
    · exact ⟨rfl, rfl, rfl, rfl⟩
    · have h := flushPendingOutput_buffer
        { s with pendingOutput := s.pendingOutput ++ data,
                 pendingSince := some (s.pendingSince.getD now) } now postOk
      exact ⟨h.1, h.2.1, h.2.2.1, h.2.2.2.1⟩

theorem addOutputSession_chunks (s : TerminalSession) (data : String) (now : Nat)
    (postOk : Bool) :
    (addOutputSession s data now postOk).1.outputChunks
      = (addOutputBuffer s data).outputChunks := by
  simp only [addOutputSession]
  split
  · exact (sendToViewDebounced_buffer _ _ _ _).1
  · rfl

theorem foldl_append_data (l : List String) :
    ∀ acc : String, (l.foldl (· ++ ·) acc).data = acc.data ++ (l.map String.data).flatten := by
  induction l with
  | nil => intro acc; simp
  | cons s t ih =>
    intro acc
    simp only [List.foldl_cons, List.map_cons, List.flatten_cons, ih (acc ++ s),
      String.data_append, List.append_assoc]

theorem join_data (l : List String) :
    (String.join l).data = (l.map String.data).flatten := by
  have h : String.join l = l.foldl (· ++ ·) "" := rfl
  rw [h, foldl_append_data]
  rfl

theorem join_suffix_of_suffix {l1 l2 : List String} (h : l1 <:+ l2) :
    (String.join l1).data <:+ (String.join l2).data := by
  obtain ⟨t, rfl⟩ := h
  rw [join_data, join_data, List.map_append, List.flatten_append]
  exact ⟨(t.map String.data).flatten, rfl⟩

/-- A sequence of `addOutput` calls on one session; each call carries the chunk,
the `Date.now()` at which it happens, and whether a `postMessage` during it
would succeed. -/
def runAddOutputs (s : TerminalSession) (l : List (String × Nat × Bool)) : TerminalSession :=
  l.foldl (fun s t => (addOutputSession s t.1 t.2.1 t.2.2).1) s

theorem runAddOutputs_chunks_suffix (l : List (String × Nat × Bool)) :
    ∀ s : TerminalSession,
      (runAddOutputs s l).outputChunks <:+ s.outputChunks ++ l.map (·.1) := by
  induction l with
  | nil => intro s; simp [runAddOutputs]
  | cons t rest ih =>
    intro s
    have h1 : (addOutputSession s t.1 t.2.1 t.2.2).1.outputChunks
        <:+ s.outputChunks ++ [t.1] := by
      rw [addOutputSession_chunks]
      exact addOutputBuffer_chunks_suffix s t.1
    have h2 := ih (addOutputSession s t.1 t.2.1 t.2.2).1
    have h3 : (addOutputSession s t.1 t.2.1 t.2.2).1.outputChunks ++ rest.map (·.1)
        <:+ (s.outputChunks ++ [t.1]) ++ rest.map (·.1) := by
      obtain ⟨u, hu⟩ := h1
      exact ⟨u, by rw [← hu, List.append_assoc]⟩
    have hrun : runAddOutputs s (t :: rest)
        = runAddOutputs (addOutputSession s t.1 t.2.1 t.2.2).1 rest := rfl
    rw [hrun]
    refine (h2.trans h3).trans ?_
    rw [List.append_assoc]
    simp

theorem connectView_snapshot (s : TerminalSession) (v cfg : Nat)
    (hb : 0 < s.totalBufferLength) (hc : 0 < s.outputChunks.length)
    (hcfg : max 50 cfg = s.maxHistoryLines) :
    (connectView s v cfg true).2 = [(v, String.join s.outputChunks)] ∧
      (connectView s v cfg true).1.outputChunks = s.outputChunks ∧
      (connectView s v cfg true).1.outputNewlines = s.outputNewlines ∧
      (connectView s v cfg true).1.totalBufferLength = s.totalBufferLength ∧
      (connectView s v cfg true).1.totalLineCount = s.totalLineCount ∧
      (connectView s v cfg true).1.currentView = some v ∧
      (connectView s v cfg true).1.isConnected = true ∧
      (connectView s v cfg true).1.pendingOutput = s.pendingOutput ∧
      (connectView s v cfg true).1.outputTimer = s.outputTimer ∧
      (connectView s v cfg true).1.maxHistoryLines = s.maxHistoryLines := by
  have hne : ¬ (max 50 cfg ≠ s.maxHistoryLines) := by rw [hcfg]; exact fun h => h rfl
  simp only [connectView, if_neg hne]
  cases hcv : s.currentView with
  | none => simp [sendToView, hb, hc]
  | some w =>
    by_cases hw : w ≠ v
    · simp [sendToView, hb, hc, hw]
    · simp [sendToView, hb, hc, hw]

theorem flushPendingOutput_delivers (s : TerminalSession) (v : Nat) (now : Nat)
    (hv : s.currentView = some v) (hp : s.pendingOutput ≠ "") :
    (flushPendingOutput s now true).2 = [(v, s.pendingOutput)] ∧
      (flushPendingOutput s now true).1.pendingOutput = "" ∧
      (flushPendingOutput s now true).1.outputTimer = false ∧
      (flushPendingOutput s now true).1.lastOutputTime = now := by
  simp [flushPendingOutput, hv, hp]

theorem flushPendingOutput_fails (s : TerminalSession) (v : Nat) (now : Nat)
    (hv : s.currentView = some v) (hp : s.pendingOutput ≠ "") :
    flushPendingOutput s now false
      = ({ s with pendingOutput := "", lastOutputTime := now, pendingSince := none,
                  isConnected := false, outputTimer := false }, []) := by
  simp [flushPendingOutput, hv, hp]

/-! ### Claim theorems -/

/-- Claim C2: order preservation.  For every configured session and every
finite sequence of `addOutput` calls with chunks s1..sn (no `clearBuffer` in
between), the concatenation of the chunks retained in the session's chunk
list after the last call, oldest-first (what `outputChunks.join('')` yields),
is a suffix of the concatenation s1‖s2‖…‖sn. -/
theorem c2_order_preservation (cfg : Nat) (l : List (String × Nat × Bool)) :
    (String.join (runAddOutputs (mkSession cfg) l).outputChunks).data
      <:+ (String.join (l.map (·.1))).data := by
  have h := runAddOutputs_chunks_suffix l (mkSession cfg)
  simp only [mkSession, List.nil_append] at h
  exact join_suffix_of_suffix h

/-- Claim C3: bounded memory invariant.  After any `addOutput` call that
triggers eviction (the running length would exceed `maxBufferSize` or the
running newline count would exceed `maxHistoryLines`), either the chunk list
is empty or the running total length is at most `trimTarget maxBufferSize`
(the cap times the trim fraction 0.7) and hence at most `maxBufferSize`;
eviction removes chunks only from the front (the retained chunk list is a
suffix of the pre-eviction list). -/
theorem c3_bounded_memory (s : TerminalSession) (data : String)
    (h : s.totalBufferLength + data.length > s.maxBufferSize ∨
      s.totalLineCount + countNewlines data > s.maxHistoryLines) :
    (addOutputBuffer s data).outputChunks <:+ s.outputChunks ++ [data] ∧
      ((addOutputBuffer s data).outputChunks = [] ∨
        ((addOutputBuffer s data).totalBufferLength ≤ trimTarget s.maxBufferSize ∧
          (addOutputBuffer s data).totalBufferLength ≤ s.maxBufferSize ∧
          (addOutputBuffer s data).totalLineCount ≤ trimTarget s.maxHistoryLines)) := by
  refine ⟨addOutputBuffer_chunks_suffix s data, ?_⟩
  simp only [addOutputBuffer]
  rw [if_pos h]
  have hpost := evictLoop_post (trimTarget s.maxBufferSize) (trimTarget s.maxHistoryLines)
    (s.outputChunks ++ [data]) (s.outputNewlines ++ [countNewlines data])
    (s.totalBufferLength + data.length) (s.totalLineCount + countNewlines data)
  rcases hpost with h1 | h2
  · left; exact h1
  · right
    exact ⟨h2.1, h2.1.trans (trimTarget_le s.maxBufferSize), h2.2⟩

/-- A session one character short of the size cap, used as a concrete witness
input for eviction. -/
def fullSession : TerminalSession :=
  { mkSession DEFAULT_MAX_LINES with
    outputChunks := ["x"], outputNewlines := [0],
    totalBufferLength := 50000, totalLineCount := 0 }

/-- Witness for `c3_bounded_memory` at a concrete overflowing input. -/
theorem c3_bounded_memory_witness :
    (fullSession.totalBufferLength + ("y" : String).length > fullSession.maxBufferSize ∨
      fullSession.totalLineCount + countNewlines ("y") > fullSession.maxHistoryLines) ∧
      ((addOutputBuffer fullSession ("y")).outputChunks <:+ fullSession.outputChunks ++ ["y"] ∧
        ((addOutputBuffer fullSession ("y")).outputChunks = [] ∨
          ((addOutputBuffer fullSession ("y")).totalBufferLength
              ≤ trimTarget fullSession.maxBufferSize ∧
            (addOutputBuffer fullSession ("y")).totalBufferLength ≤ fullSession.maxBufferSize ∧
            (addOutputBuffer fullSession ("y")).totalLineCount
              ≤ trimTarget fullSession.maxHistoryLines))) :=
  ⟨by decide, c3_bounded_memory fullSession ("y") (by decide)⟩

/-- Claim C4: reconnect fidelity.  For every session whose buffer is
non-empty, `connectView` (with the configured line cap unchanged) posts the
entire concatenated buffer to the connecting consumer immediately as one
snapshot message, does not clear the buffer, and in the delivery trace that
snapshot precedes every delivery caused by events after the connect call. -/
theorem c4_reconnect_fidelity (s : TerminalSession) (v cfg : Nat) (evs : List Event)
    (hb : 0 < s.totalBufferLength) (hc : 0 < s.outputChunks.length)
    (hcfg : max 50 cfg = s.maxHistoryLines) :
    (connectView s v cfg true).2 = [(v, String.join s.outputChunks)] ∧
      (connectView s v cfg true).1.outputChunks = s.outputChunks ∧
      (runEvents s (Event.connect v cfg true :: evs)).2
        = (v, String.join s.outputChunks) :: (runEvents (connectView s v cfg true).1 evs).2 := by
  obtain ⟨h1, h2, -⟩ := connectView_snapshot s v cfg hb hc hcfg
  refine ⟨h1, h2, ?_⟩
  simp [runEvents, stepEvent, h1]

/-- Witness for `c4_reconnect_fidelity`: a fresh session holding one buffered
chunk `"hi"`, a consumer connecting, then a later `addOutput`. -/
theorem c4_reconnect_fidelity_witness :
    (0 < fullSession.totalBufferLength ∧ 0 < fullSession.outputChunks.length ∧
        max 50 DEFAULT_MAX_LINES = fullSession.maxHistoryLines) ∧
      (connectView fullSession 1 DEFAULT_MAX_LINES true).2
          = [(1, String.join fullSession.outputChunks)] ∧
        (connectView fullSession 1 DEFAULT_MAX_LINES true).1.outputChunks
          = fullSession.outputChunks ∧
        (runEvents fullSession
            (Event.connect 1 DEFAULT_MAX_LINES true :: [Event.addOutput ("z") 100 true])).2
          = (1, String.join fullSession.outputChunks)
            :: (runEvents (connectView fullSession 1 DEFAULT_MAX_LINES true).1
                [Event.addOutput ("z") 100 true]).2 :=
  ⟨⟨by decide, by decide, by decide⟩,
    c4_reconnect_fidelity fullSession 1 DEFAULT_MAX_LINES [Event.addOutput ("z") 100 true]
      (by decide) (by decide) (by decide)⟩

/-- A concrete session with buffered history, an attached view and pending
un-flushed output, used as a witness input. -/
def pendingSession : TerminalSession :=
  { mkSession DEFAULT_MAX_LINES with
    outputChunks := ["h"], outputNewlines := [0],
    totalBufferLength := 1, totalLineCount := 0,
    currentView := some 4, isConnected := true,
    pendingOutput := "p", outputTimer := true }

/-- Claim C6: flush failure atomicity.  If posting the pending output throws
(`postOk = false`), the session is marked disconnected and the pending
accumulator is discarded, while the chunk list, total buffer length and total
line count are unchanged, so a later `connectView` still delivers the full
buffered history as its snapshot. -/
theorem c6_flush_failure_atomicity (s : TerminalSession) (v w cfg now : Nat)
    (hp : s.pendingOutput ≠ "") (hv : s.currentView = some v)
    (hb : 0 < s.totalBufferLength) (hc : 0 < s.outputChunks.length)
    (hcfg : max 50 cfg = s.maxHistoryLines) :
    (flushPendingOutput s now false).2 = [] ∧
      (flushPendingOutput s now false).1.isConnected = false ∧
      (flushPendingOutput s now false).1.pendingOutput = "" ∧
      (flushPendingOutput s now false).1.outputChunks = s.outputChunks ∧
      (flushPendingOutput s now false).1.totalBufferLength = s.totalBufferLength ∧
      (flushPendingOutput s now false).1.totalLineCount = s.totalLineCount ∧
      (connectView (flushPendingOutput s now false).1 w cfg true).2
        = [(w, String.join s.outputChunks)] := by
  have hf := flushPendingOutput_fails s v now hv hp
  rw [hf]
  refine ⟨rfl, rfl, rfl, rfl, rfl, rfl, ?_⟩
  have := (connectView_snapshot
    { s with pendingOutput := "", lastOutputTime := now, pendingSince := none,
             isConnected := false, outputTimer := false } w cfg hb hc hcfg).1
  exact this

/-- Witness for `c6_flush_failure_atomicity`: a session with buffered chunk
`"h"`, pending output `"p"` and attached view 4; the flush throws, then view 5
connects. -/
theorem c6_flush_failure_atomicity_witness :
    (pendingSession.pendingOutput ≠ "" ∧ pendingSession.currentView = some 4 ∧
        0 < pendingSession.totalBufferLength ∧ 0 < pendingSession.outputChunks.length ∧
        max 50 DEFAULT_MAX_LINES = pendingSession.maxHistoryLines) ∧
      (flushPendingOutput pendingSession 9 false).2 = [] ∧
        (flushPendingOutput pendingSession 9 false).1.isConnected = false ∧
        (flushPendingOutput pendingSession 9 false).1.pendingOutput = "" ∧
        (flushPendingOutput pendingSession 9 false).1.outputChunks
          = pendingSession.outputChunks ∧
        (flushPendingOutput pendingSession 9 false).1.totalBufferLength
          = pendingSession.totalBufferLength ∧
        (flushPendingOutput pendingSession 9 false).1.totalLineCount
          = pendingSession.totalLineCount ∧
        (connectView (flushPendingOutput pendingSession 9 false).1 5 DEFAULT_MAX_LINES true).2
          = [(5, String.join pendingSession.outputChunks)] :=
  ⟨⟨by decide, by decide, by decide, by decide, by decide⟩,
    c6_flush_failure_atomicity pendingSession 4 5 DEFAULT_MAX_LINES 9
      (by decide) (by decide) (by decide) (by decide) (by decide)⟩

/-- Claim C10 (implicit): for a key with no session, `addOutput` is a silent
no-op — the registry is unchanged, nothing is delivered and no error is
raised. -/
theorem c10_missing_session_noop (m : SessionManagerState) (key data : String)
    (now : Nat) (postOk : Bool) (h : lookupSession m key = none) :
    addOutputMgr m key data now postOk = (m, []) := by
  simp [addOutputMgr, h]

/-- Witness for `c10_missing_session_noop`: the empty registry. -/
theorem c10_missing_session_noop_witness :
    lookupSession ⟨[]⟩ "ws" = none ∧
      addOutputMgr ⟨[]⟩ "ws" "data" 0 true = (⟨[]⟩, []) :=
  ⟨by decide, c10_missing_session_noop ⟨[]⟩ "ws" "data" 0 true (by decide)⟩

/-- Claim C1 counterexample: the claim "re-connecting the already-attached
consumer does not re-deliver bytes it has already received" is false.  On a
fresh session, one `addOutput "ab"`, then `connectView` for view 7 twice (the
second call re-connecting the already-attached view) delivers the bytes of the
single produced chunk `"ab"` to view 7 twice: `connectView` unconditionally
re-sends the whole buffered snapshot. -/
theorem c1_reconnect_duplicates_counterexample :
    (runEvents (mkSession DEFAULT_MAX_LINES)
        [Event.addOutput ("ab") 0 true, Event.connect 7 DEFAULT_MAX_LINES true,
          Event.connect 7 DEFAULT_MAX_LINES true]).2
      = [(7, "ab"), (7, "ab")] := by
  decide

/-- Claim C1 (amended): no produced byte is dropped — `connectView` re-sends
the entire buffered snapshot and a flush always delivers the whole pending
accumulator — but bytes can be delivered twice: `connectView` neither clears
the pending accumulator nor cancels a pending debounce timer, so for any
session with an attached view, a pending timer and non-empty pending output,
connecting (with unchanged configuration) delivers the full buffer snapshot
and the subsequent timer fire then delivers the pre-connect pending bytes
again to the same consumer. -/
theorem c1_amended_connect_redelivers_pending (s : TerminalSession) (v cfg now : Nat)
    (_hv : s.currentView = some v) (ht : s.outputTimer = true)
    (hp : s.pendingOutput ≠ "") (hb : 0 < s.totalBufferLength)
    (hc : 0 < s.outputChunks.length) (hcfg : max 50 cfg = s.maxHistoryLines) :
    (runEvents s [Event.connect v cfg true, Event.timer now true]).2
      = [(v, String.join s.outputChunks), (v, s.pendingOutput)] := by
  obtain ⟨h1, -, -, -, -, hcv, -, hpend, htim, -⟩ := connectView_snapshot s v cfg hb hc hcfg
  have hfire : (timerFire (connectView s v cfg true).1 now true).2
      = [(v, s.pendingOutput)] := by
    rw [timerFire, if_pos (by rw [htim, ht])]
    have := (flushPendingOutput_delivers (connectView s v cfg true).1 v now hcv
      (by rw [hpend]; exact hp)).1
    rw [this, hpend]
  simp [runEvents, stepEvent, h1, hfire]

/-- Witness for `c1_amended_connect_redelivers_pending` at `pendingSession`. -/
theorem c1_amended_connect_redelivers_pending_witness :
    (pendingSession.currentView = some 4 ∧ pendingSession.outputTimer = true ∧
        pendingSession.pendingOutput ≠ "" ∧ 0 < pendingSession.totalBufferLength ∧
        0 < pendingSession.outputChunks.length ∧
        max 50 DEFAULT_MAX_LINES = pendingSession.maxHistoryLines) ∧
      (runEvents pendingSession [Event.connect 4 DEFAULT_MAX_LINES true,
          Event.timer 20 true]).2
        = [(4, String.join pendingSession.outputChunks), (4, pendingSession.pendingOutput)] :=
  ⟨⟨by decide, by decide, by decide, by decide, by decide, by decide⟩,
    c1_amended_connect_redelivers_pending pendingSession 4 DEFAULT_MAX_LINES 20
      (by decide) (by decide) (by decide) (by decide) (by decide) (by decide)⟩

theorem append_ne_empty (a b : String) (h : b ≠ "") : a ++ b ≠ "" := by
  intro he
  apply h
  have hd : a.data ++ b.data = [] := by rw [← String.data_append, he]
  have hb : b.data = [] := (List.append_eq_nil.mp hd).2
  cases b with
  | mk l => exact congrArg String.mk hb

/-- Claim C5: debounce/coalescing rule.  For a session with an attached
consumer, a chunk arriving at the scheduler is flushed immediately (any
pending timer cancelled) if the pending accumulator has reached
`IMMEDIATE_FLUSH_THRESHOLD` (8192) characters or the pending batch is at
least `MAX_DEBOUNCE_MS` (32 ms) old; otherwise, if the gap since the last
flush is under `DEBOUNCE_WINDOW_MS` (16 ms), a flush is scheduled (the timer
flag set, replacing any earlier timer) and nothing is delivered yet; and if
that gap is at least the window, the flush happens immediately. -/
theorem c5_debounce_rule (s : TerminalSession) (v : Nat) (data : String) (now : Nat)
    (hv : s.currentView = some v) (hd : data ≠ "") :
    (((s.pendingOutput ++ data).length ≥ IMMEDIATE_FLUSH_THRESHOLD ∨
        now - s.pendingSince.getD now ≥ MAX_DEBOUNCE_MS) →
      (sendToViewDebounced s data now true).2 = [(v, s.pendingOutput ++ data)] ∧
        (sendToViewDebounced s data now true).1.outputTimer = false ∧
        (sendToViewDebounced s data now true).1.pendingOutput = "") ∧
      (¬ ((s.pendingOutput ++ data).length ≥ IMMEDIATE_FLUSH_THRESHOLD ∨
          now - s.pendingSince.getD now ≥ MAX_DEBOUNCE_MS) →
        now - s.lastOutputTime < DEBOUNCE_WINDOW_MS →
        (sendToViewDebounced s data now true).2 = [] ∧
          (sendToViewDebounced s data now true).1.outputTimer = true ∧
          (sendToViewDebounced s data now true).1.pendingOutput
            = s.pendingOutput ++ data) ∧
      (¬ ((s.pendingOutput ++ data).length ≥ IMMEDIATE_FLUSH_THRESHOLD ∨
          now - s.pendingSince.getD now ≥ MAX_DEBOUNCE_MS) →
        ¬ (now - s.lastOutputTime < DEBOUNCE_WINDOW_MS) →
        (sendToViewDebounced s data now true).2 = [(v, s.pendingOutput ++ data)] ∧
          (sendToViewDebounced s data now true).1.outputTimer = false ∧
          (sendToViewDebounced s data now true).1.pendingOutput = "") := by
  have hpne : s.pendingOutput ++ data ≠ "" := append_ne_empty s.pendingOutput data hd
  refine ⟨fun h1 => ?_, fun h1 h2 => ?_, fun h1 h2 => ?_⟩ <;>
    simp only [sendToViewDebounced] <;> try dsimp only
  · rw [if_pos h1]
    have hfl := flushPendingOutput_delivers
      { s with pendingOutput := s.pendingOutput ++ data,
               pendingSince := some (s.pendingSince.getD now), outputTimer := false }
      v now hv hpne
    exact ⟨hfl.1, hfl.2.2.1, hfl.2.1⟩
  · rw [if_neg h1, if_pos h2]
    exact ⟨rfl, rfl, rfl⟩
  · rw [if_neg h1, if_neg h2]
    have hfl := flushPendingOutput_delivers
      { s with pendingOutput := s.pendingOutput ++ data,
               pendingSince := some (s.pendingSince.getD now) }
      v now hv hpne
    exact ⟨hfl.1, hfl.2.2.1, hfl.2.1⟩

/-- Witness for `c5_debounce_rule`: with `pendingSession` (pending `"p"`,
last flush at time 0), a chunk `"x"` at time 100 lands in the
immediate-flush-after-window branch. -/
theorem c5_debounce_rule_witness :
    (pendingSession.currentView = some 4 ∧ ("x" : String) ≠ "") ∧
      (sendToViewDebounced pendingSession ("x") 100 true).2
          = [(4, pendingSession.pendingOutput ++ "x")] ∧
        (sendToViewDebounced pendingSession ("x") 100 true).1.outputTimer = false ∧
        (sendToViewDebounced pendingSession ("x") 100 true).1.pendingOutput = "" :=
  ⟨⟨by decide, by decide⟩,
    (c5_debounce_rule pendingSession 4 ("x") 100 (by decide) (by decide)).2.2
      (by decide) (by decide)⟩

theorem find?_filter_out (key : String) :
    ∀ l : List (String × ProcInfo),
      (l.filter (fun p => !(p.1 == key))).find? (fun p => p.1 == key) = none := by
  intro l
  induction l with
  | nil => rfl
  | cons p rest ih =>
    by_cases h : p.1 == key
    · simp [List.filter_cons, h, ih]
    · simp only [List.filter_cons]
      rw [if_pos (by simp [h])]
      simp [List.find?_cons, h, ih]

theorem lookupProc_removeProc (m : ShellManagerState) (key : String) :
    lookupProc (removeProc m key) key = none := by
  simp [lookupProc, removeProc, find?_filter_out]

/-- Claim C7: idempotent, registry-first termination.  `terminateProcessAsync`
always settles without error; afterwards the key is gone from the registry, so
a second call (the key already removed) also settles without error and changes
nothing; in the ordered action trace, the registry removal is the first action
when any action happens at all (in particular it precedes any signal); and a
subsequent `getOrCreateProcess` for the key would spawn a fresh process. -/
theorem c7_idempotent_termination (m : ShellManagerState) (key : String) :
    (terminateProcessAsync m key).2.2 = true ∧
      lookupProc (terminateProcessAsync m key).1 key = none ∧
      terminateProcessAsync (terminateProcessAsync m key).1 key
        = ((terminateProcessAsync m key).1, [], true) ∧
      ((terminateProcessAsync m key).2.1 = [] ∨
        (terminateProcessAsync m key).2.1.head? = some (TermAction.deleteKey key)) ∧
      shouldCreate (terminateProcessAsync m key).1 key = true := by
  cases h : lookupProc m key with
  | none =>
    simp [terminateProcessAsync, h, shouldCreate]
  | some info =>
    simp only [terminateProcessAsync, h]
    have hrm := lookupProc_removeProc m key
    by_cases hk : (info.killed || info.exited) = true
    · rw [if_pos hk]
      exact ⟨rfl, hrm, by simp [terminateProcessAsync, hrm], Or.inr rfl,
        by simp [shouldCreate, hrm]⟩
    · rw [if_neg hk]
      exact ⟨rfl, hrm, by simp [terminateProcessAsync, hrm], Or.inr rfl,
        by simp [shouldCreate, hrm]⟩

/-- Claim C8 (spec-modelled): the backpressure pair.
`sendToProcessWithBackpressure` attempts the write and its boolean result says
exactly whether the stream's internal buffer is under its high-water mark
after the write; `waitForDrain` registers a one-shot drain listener and leaves
the caller suspended; the drain event resumes the suspended caller and removes
the listener, and being one-shot, a second drain event resumes nothing. -/
theorem c8_backpressure_pair (st : InputStream) (data : String) (c : DrainWait) :
    ((sendToProcessWithBackpressure st data).2 = true ↔
        (sendToProcessWithBackpressure st data).1.buffered
          < (sendToProcessWithBackpressure st data).1.highWaterMark) ∧
      (waitForDrain st).2 = DrainWait.waiting ∧
      (waitForDrain st).1.drainListener = true ∧
      (drainEvent (waitForDrain st).1 c).2 = DrainWait.resumed ∧
      (drainEvent (waitForDrain st).1 c).1.drainListener = false ∧
      (drainEvent (drainEvent (waitForDrain st).1 c).1 DrainWait.waiting).2
        = DrainWait.waiting ∧
      (writeWithBackpressure st data).2
        = (if st.buffered + data.length < st.highWaterMark then DrainWait.resumed
            else DrainWait.waiting) := by
  refine ⟨by simp [sendToProcessWithBackpressure], rfl, rfl,
    by simp [drainEvent, waitForDrain], by simp [drainEvent, waitForDrain],
    by simp [drainEvent, waitForDrain], ?_⟩
  simp only [writeWithBackpressure, sendToProcessWithBackpressure, waitForDrain]
  by_cases h : st.buffered + data.length < st.highWaterMark
  · rw [if_pos h]
    simp [h]
  · rw [if_neg h]
    simp [h]

/-! ### Steady-state analysis of repeated 1000-character appends (C9) -/

theorem chunk1000_length : chunk1000.length = 1000 := by
  show (List.replicate 1000 'a').length = 1000
  rw [List.length_replicate]

theorem countNewlines_replicate_a (n : Nat) :
    countNewlines (String.mk (List.replicate n 'a')) = 0 := by
  show (List.replicate n 'a').countP (fun c => c == '\n') = 0
  induction n with
  | zero => rfl
  | succ k ih => simp only [List.replicate_succ, List.countP_cons]; simp [ih]

theorem chunk1000_newlines : countNewlines chunk1000 = 0 :=
  countNewlines_replicate_a 1000

/-- The session shape repeated 1000-character appends cycle through:
`m` retained chunks of 1000 characters each, no newlines. -/
def steadyCore (m : Nat) : TerminalSession :=
  { mkSession DEFAULT_MAX_LINES with
    outputChunks := List.replicate m chunk1000,
    outputNewlines := List.replicate m 0,
    totalBufferLength := 1000 * m }

theorem evictLoop_stop (ts tl : Nat) (chunks : List String) (nls : List Nat)
    (len lines : Nat) (h : ¬ (len > ts ∨ lines > tl)) :
    evictLoop ts tl chunks nls len lines = ⟨chunks, nls, len, lines⟩ := by
  cases chunks with
  | nil => rfl
  | cons c rest => simp only [evictLoop, if_neg h]

theorem evictLoop_step (ts tl : Nat) (c : String) (rest : List String) (n0 : Nat)
    (nls : List Nat) (len lines : Nat) (h : len > ts ∨ lines > tl) :
    evictLoop ts tl (c :: rest) (n0 :: nls) len lines
      = evictLoop ts tl rest nls (len - c.length) (lines - n0) := by
  simp only [evictLoop, if_pos h, List.tail_cons, List.headD_cons]

theorem evictLoop_steady (k : Nat) :
    evictLoop 35000 210 (List.replicate (35 + k) chunk1000) (List.replicate (35 + k) 0)
        (1000 * (35 + k)) 0
      = ⟨List.replicate 35 chunk1000, List.replicate 35 0, 35000, 0⟩ := by
  induction k with
  | zero =>
    rw [evictLoop_stop 35000 210 _ _ _ _ (by omega)]
  | succ k ih =>
    have h1 : 35 + (k + 1) = (35 + k) + 1 := by omega
    rw [h1, List.replicate_succ, List.replicate_succ,
      evictLoop_step 35000 210 _ _ _ _ _ _ (by omega), chunk1000_length]
    have h2 : 1000 * (35 + k + 1) - 1000 = 1000 * (35 + k) := by omega
    have h3 : (0 : Nat) - 0 = 0 := rfl
    rw [h2, h3, ih]

theorem addOutputBuffer_steady_noTrim (m : Nat) (h : m < 50) :
    addOutputBuffer (steadyCore m) chunk1000 = steadyCore (m + 1) := by
  simp only [addOutputBuffer, steadyCore, mkSession, chunk1000_newlines, chunk1000_length,
    MAX_BUFFER_SIZE, DEFAULT_MAX_LINES]
  rw [if_neg (by simp; omega)]
  simp only [← List.replicate_succ']
  have : 1000 * m + 1000 = 1000 * (m + 1) := by omega
  rw [this]

theorem addOutputBuffer_steady_trim :
    addOutputBuffer (steadyCore 50) chunk1000 = steadyCore 35 := by
  simp only [addOutputBuffer, steadyCore, mkSession, chunk1000_newlines, chunk1000_length,
    MAX_BUFFER_SIZE, DEFAULT_MAX_LINES]
  rw [if_pos (by simp)]
  simp only [← List.replicate_succ']
  have ht1 : trimTarget 50000 = 35000 := by decide
  have ht2 : trimTarget (max 50 300) = 210 := by decide
  have h1 : 1000 * 50 + 1000 = 1000 * (35 + 16) := by omega
  have h2 : (0 : Nat) + 0 = 0 := rfl
  rw [ht1, ht2, h1, h2]
  have h3 : (50 : Nat) + 1 = 35 + 16 := by omega
  rw [h3, evictLoop_steady 16]

theorem foldCore (i : Nat) :
    ∀ m : Nat, m + i ≤ 50 →
      (List.replicate i chunk1000).foldl addOutputBuffer (steadyCore m)
        = steadyCore (m + i) := by
  induction i with
  | zero => intro m h; simp
  | succ k ih =>
    intro m h
    rw [List.replicate_succ, List.foldl_cons, addOutputBuffer_steady_noTrim m (by omega),
      ih (m + 1) (by omega)]
    congr 1
    omega

theorem steadySession_eq_core (m : Nat) (h : m ≤ 50) : steadySession m = steadyCore m := by
  have h0 : steadyCore 0 = mkSession DEFAULT_MAX_LINES := rfl
  unfold steadySession
  rw [← h0]
  have := foldCore m 0 (by omega)
  simpa using this

theorem fold16_steady :
    (List.replicate 16 chunk1000).foldl addOutputBuffer (steadyCore 35) = steadyCore 35 := by
  have h15 : (List.replicate 15 chunk1000).foldl addOutputBuffer (steadyCore 35)
      = steadyCore 50 := by
    have := foldCore 15 35 (by omega)
    simpa using this
  have h16 : (16 : Nat) = 15 + 1 := rfl
  rw [h16, List.replicate_succ', List.foldl_append, h15]
  simpa using addOutputBuffer_steady_trim

theorem steadySession_succ (n : Nat) :
    steadySession (n + 1) = addOutputBuffer (steadySession n) chunk1000 := by
  unfold steadySession
  rw [List.replicate_succ', List.foldl_append]
  rfl

theorem steadySession_periodic : ∀ k : Nat, steadySession (51 + 16 * k) = steadyCore 35 := by
  intro k
  induction k with
  | zero =>
    have h51 : (51 : Nat) + 16 * 0 = 50 + 1 := rfl
    rw [h51, steadySession_succ, steadySession_eq_core 50 (by omega),
      addOutputBuffer_steady_trim]
  | succ k ih =>
    have hsplit : 51 + 16 * (k + 1) = (51 + 16 * k) + 16 := by omega
    have hfold : steadySession ((51 + 16 * k) + 16)
        = (List.replicate 16 chunk1000).foldl addOutputBuffer (steadySession (51 + 16 * k)) := by
      unfold steadySession
      rw [List.replicate_add, List.foldl_append]
    rw [hsplit, hfold, ih, fold16_steady]

theorem steady_totals (k : Nat) :
    (steadySession (51 + 16 * k)).totalBufferLength = 35000 ∧
      (steadySession (50 + 16 * k)).totalBufferLength = 50000 := by
  constructor
  · rw [steadySession_periodic k]; rfl
  · cases k with
    | zero =>
      have h : (50 : Nat) + 16 * 0 = 50 := rfl
      rw [h, steadySession_eq_core 50 (by omega)]
      rfl
    | succ k' =>
      have hsplit : 50 + 16 * (k' + 1) = (51 + 16 * k') + 15 := by omega
      have hfold : steadySession ((51 + 16 * k') + 15)
          = (List.replicate 15 chunk1000).foldl addOutputBuffer
              (steadySession (51 + 16 * k')) := by
        unfold steadySession
        rw [List.replicate_add, List.foldl_append]
      rw [hsplit, hfold, steadySession_periodic k']
      have h15 := foldCore 15 35 (by omega)
      rw [h15]
      rfl

/-- Claim C9 counterexample: with `maxBufferSize = 50000` and trim fraction
0.7, repeated 1000-character appends do NOT converge to a retained size
between 35000 and 36000.  After 66 appends the retained size is 50000
(far above 36000), after 82 appends it is 50000 again, and the full session
state after append 67 equals the state after append 51 — the evolution is
periodic with period 16, so the retained size keeps returning to 50000 and
never settles in the claimed band. -/
theorem c9_steady_state_counterexample :
    (steadySession 66).totalBufferLength = 50000 ∧
      ¬ ((steadySession 66).totalBufferLength ≤ 36000) ∧
      (steadySession 82).totalBufferLength = 50000 ∧
      steadySession 67 = steadySession 51 := by
  have h66 := (steady_totals 1).2
  have h82 := (steady_totals 2).2
  have h67 := steadySession_periodic 1
  have h51 := steadySession_periodic 0
  norm_num at h66 h82 h67 h51
  exact ⟨h66, by omega, h82, h67.trans h51.symm⟩

/-- Claim C9 (amended): with `maxBufferSize = 50000` and trim fraction 0.7,
repeated 1000-character appends (line cap not binding) reach a period-16
cycle rather than a 35000-36000 band: every evicting call (appends 51, 67,
83, …) trims the retained size to exactly 35000 = `trimTarget 50000`, and
the buffer grows back to exactly 50000 (appends 50, 66, 82, …) before the
next eviction. -/
theorem c9_amended_periodic_steady_state (k : Nat) :
    (steadySession (51 + 16 * k)).totalBufferLength = trimTarget MAX_BUFFER_SIZE ∧
      (steadySession (50 + 16 * k)).totalBufferLength = MAX_BUFFER_SIZE :=
  steady_totals k

end SecondaryTerminal
